import Mathlib

/-!
Verification of the `n8nwhatsapp` WhatsApp broadcast bot.

The development shallowly embeds the relevant parts of `src/bot.js`
(destination normalization, the `/api/send` dispatcher, the session event
handlers, `safeCall`), of `src/message-sample.js` (`createMessage`), and of
the draft dispatcher variants (`unnamed/part_000`, `unnamed/part_001`) as
executable Lean definitions, and proves the specified properties about them.

JavaScript strings are modelled as `List Char`; the external messaging
client, the image fetcher and `Math.random` are modelled as oracles supplied
through a `World` record; the dispatcher is a pure function from a request
and a world to a response, a trace of client calls, and a per-destination
outcome list.
-/

namespace N8nWhatsapp

/-- JavaScript string, modelled as a list of characters. -/
abbrev JStr := List Char

/-- JavaScript error value (we only keep its message). -/
abbrev JsErr := JStr

/-- Characters treated as whitespace by JavaScript `String.prototype.trim`
(the common ASCII ones; the source only ever feeds ASCII ids). -/
def isJsSpace (c : Char) : Bool :=
  c == ' ' || c == '\t' || c == '\n' || c == '\r' || c == '\x0b' || c == '\x0c'

/-- Left part of `trim`: drop leading whitespace. -/
def trimLeft (s : JStr) : JStr := s.dropWhile isJsSpace

/-- Right part of `trim`: drop trailing whitespace. -/
def trimRight (s : JStr) : JStr := (s.reverse.dropWhile isJsSpace).reverse

/-- JavaScript `s.trim()`. -/
def jsTrim (s : JStr) : JStr := trimRight (trimLeft s)

/-- The group-id conventional marker `"@g.us"` (from `normalizeGroupId`). -/
def gUs : JStr := "@g.us".toList

/-- JavaScript `s.includes(sub)`: substring containment. -/
def hasSubstr : JStr → JStr → Bool
  | [], sub => sub.isEmpty
  | c :: t, sub => sub.isPrefixOf (c :: t) || hasSubstr t sub

/-- `normalizeGroupId` from `src/bot.js` lines 49-53:
`if (!raw) return null; const s = raw.trim(); return s.includes("@g.us") ? s : s + "@g.us"`.
A JS string is falsy exactly when it is empty. -/
def normalizeGroupId (raw : JStr) : Option JStr :=
  if raw.isEmpty then none
  else if hasSubstr (jsTrim raw) gUs then some (jsTrim raw)
  else some (jsTrim raw ++ gUs)

/-! ### Supporting lemmas about trim and substring containment -/

lemma dropWhile_idem (p : Char → Bool) (l : JStr) :
    (l.dropWhile p).dropWhile p = l.dropWhile p := by
  induction l with
  | nil => rfl
  | cons c t ih =>
    rw [List.dropWhile_cons]
    cases hc : p c with
    | true => simpa using ih
    | false => simp [List.dropWhile_cons, hc]

lemma dropWhile_head_false (p : Char → Bool) :
    ∀ (l : JStr) (c : Char) (w : JStr), l.dropWhile p = c :: w → p c = false := by
  intro l
  induction l with
  | nil => intro c w h; simp [List.dropWhile] at h
  | cons a t ih =>
    intro c w h
    rw [List.dropWhile_cons] at h
    cases ha : p a with
    | true => rw [ha] at h; simp at h; exact ih c w h
    | false =>
      rw [ha] at h
      simp at h
      rw [← h.1]
      exact ha

lemma trimLeft_trimLeft (l : JStr) : trimLeft (trimLeft l) = trimLeft l :=
  dropWhile_idem isJsSpace l

lemma trimRight_trimRight (l : JStr) : trimRight (trimRight l) = trimRight l := by
  unfold trimRight
  rw [List.reverse_reverse, dropWhile_idem]

/-- `trimRight z` is an initial segment of `z`: what it removes is a tail. -/
lemma trimRight_decomp (z : JStr) :
    z = trimRight z ++ (z.reverse.takeWhile isJsSpace).reverse := by
  calc z = z.reverse.reverse := (List.reverse_reverse z).symm
    _ = (z.reverse.takeWhile isJsSpace ++ z.reverse.dropWhile isJsSpace).reverse := by
        rw [List.takeWhile_append_dropWhile]
    _ = (z.reverse.dropWhile isJsSpace).reverse ++ (z.reverse.takeWhile isJsSpace).reverse := by
        rw [List.reverse_append]
    _ = trimRight z ++ (z.reverse.takeWhile isJsSpace).reverse := rfl

/-- The head of a fully trimmed nonempty string is not whitespace. -/
lemma jsTrim_head_false (x : JStr) (a : Char) (w : JStr)
    (h : jsTrim x = a :: w) : isJsSpace a = false := by
  have hz := trimRight_decomp (trimLeft x)
  rw [show trimRight (trimLeft x) = jsTrim x from rfl, h] at hz
  exact dropWhile_head_false isJsSpace x a
    (w ++ ((trimLeft x).reverse.takeWhile isJsSpace).reverse) (by simpa using hz)

/-- Trimming is idempotent. -/
lemma jsTrim_idem (x : JStr) : jsTrim (jsTrim x) = jsTrim x := by
  have h1 : trimLeft (jsTrim x) = jsTrim x := by
    cases hy : jsTrim x with
    | nil => rfl
    | cons a w =>
      have hpa := jsTrim_head_false x a w hy
      simp [trimLeft, List.dropWhile_cons, hpa]
  show trimRight (trimLeft (jsTrim x)) = jsTrim x
  rw [h1]
  show trimRight (trimRight (trimLeft x)) = trimRight (trimLeft x)
  exact trimRight_trimRight (trimLeft x)

lemma trimRight_append_gUs (t : JStr) : trimRight (t ++ gUs) = t ++ gUs := by
  unfold trimRight
  rw [List.reverse_append]
  have h : gUs.reverse = 's' :: "u.g@".toList := by decide
  rw [h, List.cons_append, List.dropWhile_cons]
  have hs : isJsSpace 's' = false := by decide
  rw [hs]
  simp only [Bool.false_eq_true, if_false]
  rw [← List.cons_append, ← h, ← List.reverse_append, List.reverse_reverse]

lemma jsTrim_append_gUs (x : JStr) : jsTrim (jsTrim x ++ gUs) = jsTrim x ++ gUs := by
  cases hx : jsTrim x with
  | nil => decide
  | cons a w =>
    have hpa := jsTrim_head_false x a w hx
    show trimRight (trimLeft ((a :: w) ++ gUs)) = (a :: w) ++ gUs
    have h1 : trimLeft ((a :: w) ++ gUs) = (a :: w) ++ gUs := by
      simp [trimLeft, List.dropWhile_cons, hpa]
    rw [h1, trimRight_append_gUs]

lemma isPrefixOf_self (l : JStr) : l.isPrefixOf l = true := by
  induction l with
  | nil => rfl
  | cons c t ih => simp [List.isPrefixOf, ih]

lemma hasSubstr_self (s : JStr) : hasSubstr s s = true := by
  cases s with
  | nil => rfl
  | cons c t => simp [hasSubstr, isPrefixOf_self]

lemma hasSubstr_append_self (t s : JStr) : hasSubstr (t ++ s) s = true := by
  induction t with
  | nil => simpa using hasSubstr_self s
  | cons c t ih => simp [hasSubstr, ih]

lemma hasSubstr_gUs_ne_nil (s : JStr) (h : hasSubstr s gUs = true) : s ≠ [] := by
  intro hnil
  rw [hnil] at h
  exact absurd h (by decide)

/-- Lifting of a second normalization pass over the optional result of a
first one, as the pipeline `map(normalizeGroupId)` would do if re-applied. -/
def renormalize (o : Option JStr) : Option JStr := o.bind normalizeGroupId

/-- Normalization output characterization lemma: the result is trimmed,
nonempty, and carries the marker. -/
lemma normalize_output (x r : JStr) (h : normalizeGroupId x = some r) :
    jsTrim r = r ∧ r ≠ [] ∧ hasSubstr r gUs = true := by
  unfold normalizeGroupId at h
  by_cases hx : x.isEmpty
  · simp [hx] at h
  · simp only [hx, if_false, Bool.false_eq_true] at h
    by_cases hs : hasSubstr (jsTrim x) gUs = true
    · rw [if_pos hs] at h
      obtain rfl : jsTrim x = r := by injection h
      exact ⟨jsTrim_idem x, hasSubstr_gUs_ne_nil _ hs, hs⟩
    · rw [if_neg hs] at h
      obtain rfl : jsTrim x ++ gUs = r := by injection h
      refine ⟨jsTrim_append_gUs x, by simp [gUs], hasSubstr_append_self _ _⟩

/-- C5 main content, stated as one theorem below; this is the idempotence core. -/
lemma normalize_idem (x : JStr) :
    renormalize (normalizeGroupId x) = normalizeGroupId x := by
  cases hn : normalizeGroupId x with
  | none => rfl
  | some r =>
    obtain ⟨htrim, hne, hsub⟩ := normalize_output x r hn
    show normalizeGroupId r = some r
    unfold normalizeGroupId
    rw [if_neg (by simpa [List.isEmpty_iff] using hne)]
    simp only [htrim, hsub, if_true]

/-- Claim C5: Destination normalization trims whitespace, appends the `@g.us`
suffix exactly once to every destination string lacking it, rejects the empty
string (producing no destination), and is idempotent:
`normalize(normalize(x)) == normalize(x)` for every input. -/
theorem normalizeGroupId_spec :
    normalizeGroupId [] = none ∧
    (∀ x : JStr, x ≠ [] → hasSubstr (jsTrim x) gUs = false →
      normalizeGroupId x = some (jsTrim x ++ gUs)) ∧
    (∀ x r : JStr, normalizeGroupId x = some r → jsTrim r = r ∧ r ≠ []) ∧
    (∀ x : JStr, renormalize (normalizeGroupId x) = normalizeGroupId x) := by
  refine ⟨rfl, ?_, ?_, normalize_idem⟩
  · intro x hx hs
    unfold normalizeGroupId
    rw [if_neg (by simpa [List.isEmpty_iff] using hx), if_neg (by simp [hs])]
  · intro x r h
    obtain ⟨h1, h2, _⟩ := normalize_output x r h
    exact ⟨h1, h2⟩

/-- Witness for C5 at a concrete input: a bare id gets the suffix appended
once, an already-suffixed id is unchanged, the empty string is rejected, and
re-normalizing is the identity. -/
theorem normalizeGroupId_spec_witness :
    normalizeGroupId "123".toList = some ("123@g.us".toList) ∧
    renormalize (normalizeGroupId " 456 ".toList) = normalizeGroupId " 456 ".toList ∧
    normalizeGroupId [] = none := by
  refine ⟨?_, normalizeGroupId_spec.2.2.2 " 456 ".toList, normalizeGroupId_spec.1⟩
  have h := normalizeGroupId_spec.2.1 "123".toList (by decide) (by decide)
  rw [h]
  decide

/-! ### Base64 encoding (`Buffer.from(data).toString("base64")`) -/

/-- The base64 alphabet. -/
def b64Table : JStr :=
  "ABCDEFGHIJKLMNOPQRSTUVWXYZabcdefghijklmnopqrstuvwxyz0123456789+/".toList

/-- Character for a 6-bit value. -/
def b64Char (n : ℕ) : Char := b64Table.getD n 'A'

/-- Standard base64 of a byte list, with `=` padding. -/
def base64Chunks : List ℕ → JStr
  | [] => []
  | [a] => [b64Char (a / 4), b64Char (a % 4 * 16), '=', '=']
  | [a, b] => [b64Char (a / 4), b64Char (a % 4 * 16 + b / 16), b64Char (b % 16 * 4), '=']
  | a :: b :: c :: rest =>
      b64Char (a / 4) :: b64Char (a % 4 * 16 + b / 16) ::
        b64Char (b % 16 * 4 + c / 64) :: b64Char (c % 64) :: base64Chunks rest

/-! ### Literals from `src/bot.js` and `src/message-sample.js` -/

/-- Decimal rendering of a number, as JS template interpolation does. -/
def natToJStr (n : ℕ) : JStr := (Nat.repr n).toList

/-- `sampleDeal` from `src/message-sample.js`. -/
structure Deal where
  name : JStr
  price : ℕ
  discount : ℕ
  image : JStr
  link : JStr

/-- The literal `sampleDeal` value. -/
def sampleDeal : Deal :=
  { name := "🔥 Boat Smartwatch – Super Offer!".toList
    price := 1299
    discount := 56
    image := "https://m.media-amazon.com/images/I/51Inwb0gwLL._AC_UL320_.jpg".toList
    link := "https://amzn.to/3LAnFaJ".toList }

/-- Default title `"🔥 Hot Deal"` (unreachable because `sampleDeal.name` is
nonempty, but kept for faithfulness). -/
def hotDealDefault : JStr := "🔥 Hot Deal".toList

/-- Default urgency line from line 154 of `src/bot.js`. -/
def urgencyDefault : JStr := "⏳ Limited time offer — don\x27t miss!".toList

/-! ### Request payload and message composition -/

/-- The flexible JSON payload accepted by `POST /api/send` (fields the
handler reads). `none` models an absent field. -/
structure SendReq where
  groupIds : Option (List JStr)
  message : Option JStr
  title : Option JStr
  body : Option JStr
  description : Option JStr
  details : Option JStr
  link : Option JStr
  url : Option JStr
  urgency : Option JStr
  price : Option JStr
  image : Option JStr
  img : Option JStr
  delayBefore : Option Int

/-- A request with every field absent. -/
def emptyReq : SendReq :=
  ⟨none, none, none, none, none, none, none, none, none, none, none, none, none⟩

/-- JavaScript `a || b` for a possibly-absent string: an absent or empty
string falls through to the default. -/
def jsOr (a : Option JStr) (b : JStr) : JStr :=
  match a with
  | some s => if s.isEmpty then b else s
  | none => b

/-- JavaScript `a || b` keeping the option: used for `payload.image || ... || null`. -/
def jsOrOpt (a : Option JStr) (b : Option JStr) : Option JStr :=
  match a with
  | some s => if s.isEmpty then b else some s
  | none => b

/-- Title resolution (line 151): `payload.message || payload.title || sampleDeal.name || "🔥 Hot Deal"`. -/
def resolveTitle (p : SendReq) : JStr :=
  jsOr p.message (jsOr p.title (jsOr (some sampleDeal.name) hotDealDefault))

/-- Body resolution (line 152): `payload.body || payload.description || payload.details || ""`. -/
def resolveBody (p : SendReq) : JStr :=
  jsOr p.body (jsOr p.description (jsOr p.details []))

/-- Link resolution (line 153): `payload.link || payload.url || sampleDeal.link || ""`. -/
def resolveLink (p : SendReq) : JStr :=
  jsOr p.link (jsOr p.url (jsOr (some sampleDeal.link) []))

/-- Urgency resolution (line 154). -/
def resolveUrgency (p : SendReq) : JStr := jsOr p.urgency urgencyDefault

/-- Price-line resolution (line 155):
`payload.price ? `Price: ...` : sampleDeal.price ? `Price: ₹...` : ""`. -/
def resolvePriceLine (p : SendReq) : JStr :=
  match p.price with
  | some s =>
      if s.isEmpty then
        (if sampleDeal.price ≠ 0 then "Price: ₹".toList ++ natToJStr sampleDeal.price else [])
      else "Price: ".toList ++ s
  | none =>
      if sampleDeal.price ≠ 0 then "Price: ₹".toList ++ natToJStr sampleDeal.price else []

/-- `Array.prototype.join(sep)`. -/
def sepJoin (sep : JStr) : List JStr → JStr
  | [] => []
  | [x] => x
  | x :: y :: rest => x ++ sep ++ sepJoin sep (y :: rest)

/-- Caption composition, lines 158-166 of `src/bot.js`: parts are pushed in a
fixed order, the conditional parts only when nonempty, then joined with a
blank line. -/
def composeCaption (affId title priceLine bodyTxt link urgency : JStr) : JStr :=
  sepJoin "\n\n".toList
    (["🔥 *".toList ++ title ++ "*".toList]
      ++ (if priceLine.isEmpty then [] else ["💸 ".toList ++ priceLine])
      ++ (if bodyTxt.isEmpty then [] else [bodyTxt])
      ++ (if link.isEmpty then [] else ["👉 Buy: ".toList ++ link])
      ++ [urgency]
      ++ ["🔖 ".toList ++ (if affId.isEmpty then "LootAlert".toList else "#".toList ++ affId)])

/-- The `finalCaption` a request produces (field resolution plus composition). -/
def buildCaption (affId : JStr) (p : SendReq) : JStr :=
  composeCaption affId (resolveTitle p) (resolvePriceLine p) (resolveBody p)
    (resolveLink p) (resolveUrgency p)

/-! ### The messaging-client / fetch / randomness world and the call trace -/

/-- Outcome of the axios image fetch. -/
inductive FetchOutcome
  | threw (msg : JsErr)
  | emptyData
  | got (bytes : List ℕ) (contentType : Option JStr)
deriving DecidableEq, Repr

/-- One observable external call or wait made by the dispatcher. -/
inductive Ev
  | isConnectedCall
  | fetchImage (url : JStr)
  | delayMs (n : ℕ)
  | sendImage (chatId : JStr) (payload : JStr) (caption : JStr)
  | sendText (chatId : JStr) (caption : JStr)
deriving DecidableEq, Repr

/-- Environment oracles: the presence and answers of the external messaging
client, the image fetcher, and `Math.random` (as the sequence of values it
returns; each is in `[0,1)`). Send results are indexed by the position of the
destination in the loop; `Except.error` models a thrown rejection and
`Except.ok erro` a result object whose `erro` field is the given flag. -/
structure World where
  clientPresent : Bool
  readyOutcome : Except JsErr Bool
  fetch : JStr → FetchOutcome
  imageSendRes : ℕ → Except JsErr Bool
  textSendRes : ℕ → Except JsErr Bool
  rand : ℕ → ℚ

/-- Delivery mode recorded per destination. -/
inductive Mode
  | image
  | text
deriving DecidableEq, Repr

/-- Per-destination record derived from the loop's log branches: `delivered`
is true exactly when the wrapped send returned without throwing and without
an `erro: true` result. -/
structure Outcome where
  dest : JStr
  mode : Mode
  delivered : Bool
deriving DecidableEq, Repr

/-- HTTP response of `POST /api/send`. -/
inductive ApiResponse
  | notConnected
  | notReady
  | noGroups
  | okAttempted
deriving DecidableEq, Repr

/-- Result of one dispatch call: response, external-call trace, outcomes. -/
structure DispatchResult where
  resp : ApiResponse
  evs : List Ev
  outs : List Outcome
deriving DecidableEq, Repr

/-! ### The `/api/send` dispatcher of `src/bot.js` -/

/-- `500 + Math.floor(Math.random() * 800)` (line 211). -/
def preMs (q : ℚ) : ℕ := 500 + (⌊q * 800⌋).toNat

/-- `1500 + Math.floor(Math.random() * 2500)` (line 251). -/
def postMs (q : ℚ) : ℕ := 1500 + (⌊q * 2500⌋).toNat

/-- `groupsRaw` (lines 139-142): the request's `groupIds` when it is a
nonempty array, otherwise the configured defaults. -/
def rawGroups (df : List JStr) (p : SendReq) : List JStr :=
  match p.groupIds with
  | some l => if l.isEmpty then df else l
  | none => df

/-- `groupsRaw.map(normalizeGroupId).filter(Boolean)` (line 148): `filter(Boolean)`
drops both `null` and the empty string. -/
def normalizedGroups (df : List JStr) (p : SendReq) : List JStr :=
  ((rawGroups df p).map normalizeGroupId).filterMap fun o =>
    match o with
    | none => none
    | some s => if s.isEmpty then none else some s

/-- `payload.image || payload.img || sampleDeal.image || null` (line 169). -/
def resolvedImageUrl (p : SendReq) : Option JStr :=
  jsOrOpt p.image (jsOrOpt p.img (some sampleDeal.image))

/-- Image fetch and base64 conversion (lines 174-197): `null` on a thrown
fetch or missing data, otherwise a `data:<content-type>;base64,` string with
the content type defaulting to `image/jpeg`. -/
def fetchBase64 (w : World) (url : JStr) : Option JStr :=
  match w.fetch url with
  | .threw _ => none
  | .emptyData => none
  | .got bytes ct =>
      some ("data:".toList ++ jsOr ct "image/jpeg".toList
        ++ ";base64,".toList ++ base64Chunks bytes)

/-- One destination's send attempt (lines 214-244): an image send when a
base64 payload was resolved, otherwise a text send; always exactly one
wrapped client call, whose result only affects the logged outcome. -/
def sendBlock (w : World) (img : Option JStr) (cap : JStr) (chatId : JStr)
    (i : ℕ) : List Ev × Outcome :=
  match img with
  | some b64 =>
      match w.imageSendRes i with
      | .error _ => ([.sendImage chatId b64 cap], ⟨chatId, .image, false⟩)
      | .ok erro => ([.sendImage chatId b64 cap], ⟨chatId, .image, !erro⟩)
  | none =>
      match w.textSendRes i with
      | .error _ => ([.sendText chatId cap], ⟨chatId, .text, false⟩)
      | .ok erro => ([.sendText chatId cap], ⟨chatId, .text, !erro⟩)

/-- The per-destination send loop (lines 205-253): random pre-delay, one
wrapped send, random post-delay, then the next destination — the loop never
stops early, whatever the send results are. -/
def runSendLoop (w : World) (cap : JStr) (img : Option JStr) :
    List JStr → ℕ → List Ev × List Outcome
  | [], _ => ([], [])
  | g :: rest, i =>
      let blk := sendBlock w img cap g i
      let next := runSendLoop w cap img rest (i + 1)
      (Ev.delayMs (preMs (w.rand (2 * i))) :: blk.1
          ++ Ev.delayMs (postMs (w.rand (2 * i + 1))) :: next.1,
        blk.2 :: next.2)

/-- The whole `POST /api/send` handler of `src/bot.js` (lines 127-260). -/
def dispatch (w : World) (df : List JStr) (aff : JStr) (p : SendReq) :
    DispatchResult :=
  if w.clientPresent = false then ⟨.notConnected, [], []⟩
  else
    match w.readyOutcome with
    | .error _ => ⟨.notReady, [.isConnectedCall], []⟩
    | .ok ready =>
      if ready = false then ⟨.notReady, [.isConnectedCall], []⟩
      else if (rawGroups df p).isEmpty then ⟨.noGroups, [.isConnectedCall], []⟩
      else
        let groups := normalizedGroups df p
        let cap := buildCaption aff p
        let fetchEvs : List Ev :=
          match resolvedImageUrl p with
          | some u => [.fetchImage u]
          | none => []
        let img : Option JStr :=
          match resolvedImageUrl p with
          | some u => fetchBase64 w u
          | none => none
        let delayEvs : List Ev :=
          match p.delayBefore with
          | some v => [.delayMs (max 0 v).toNat]
          | none => []
        let lp := runSendLoop w cap img groups 0
        ⟨.okAttempted, .isConnectedCall :: (fetchEvs ++ delayEvs ++ lp.1), lp.2⟩

/-! ### Trace observations -/

/-- The destination of a send event, if the event is a send. -/
def evTarget : Ev → Option JStr
  | .sendImage c _ _ => some c
  | .sendText c _ => some c
  | _ => none

/-- All send calls' destinations, in trace order. -/
def sendTargets (evs : List Ev) : List JStr := evs.filterMap evTarget

/-- Destinations of text sends only. -/
def textTargets (evs : List Ev) : List JStr :=
  evs.filterMap fun e =>
    match e with
    | .sendText c _ => some c
    | _ => none

/-- Destinations of image sends only. -/
def imageTargets (evs : List Ev) : List JStr :=
  evs.filterMap fun e =>
    match e with
    | .sendImage c _ _ => some c
    | _ => none

/-- Whether an event is an image fetch. -/
def isFetchEv : Ev → Bool
  | .fetchImage _ => true
  | _ => false

/-- Number of image fetches in a trace. -/
def fetchCount (evs : List Ev) : ℕ := (evs.filter isFetchEv).length

/-- The outcome the image branch of the loop records for position `i`
(lines 214-230): mode is always `image`; no text attempt is made. -/
def imgOutcomeAt (w : World) (i : ℕ) (g : JStr) : Outcome :=
  match w.imageSendRes i with
  | .error _ => ⟨g, .image, false⟩
  | .ok erro => ⟨g, .image, !erro⟩

/-- Expected outcome list when an image payload was resolved. -/
def imgOutcomes (w : World) : List JStr → ℕ → List Outcome
  | [], _ => []
  | g :: rest, i => imgOutcomeAt w i g :: imgOutcomes w rest (i + 1)

/-! ### Structure of the send loop trace -/

@[simp] lemma evTarget_delay (n : ℕ) : evTarget (Ev.delayMs n) = none := rfl

@[simp] lemma evTarget_isConnected : evTarget Ev.isConnectedCall = none := rfl

@[simp] lemma evTarget_fetch (u : JStr) : evTarget (Ev.fetchImage u) = none := rfl

@[simp] lemma isFetchEv_delay (n : ℕ) : isFetchEv (Ev.delayMs n) = false := rfl

/-- Send targets ignore the probe/fetch/global-delay prefix of a dispatch trace. -/
lemma sendTargets_skip_front (u : Option JStr) (d : Option Int) (l : List Ev) :
    sendTargets (Ev.isConnectedCall ::
      ((match u with | some x => [Ev.fetchImage x] | none => []) ++
       (match d with | some v => [Ev.delayMs (max 0 v).toNat] | none => []) ++ l)) =
    sendTargets l := by
  cases u <;> cases d <;>
    simp [sendTargets, List.filterMap_cons, List.filterMap_append, evTarget]

/-- Unfolding equation for one loop iteration. -/
lemma runSendLoop_cons (w : World) (cap : JStr) (img : Option JStr) (g : JStr)
    (rest : List JStr) (i : ℕ) :
    runSendLoop w cap img (g :: rest) i =
      (Ev.delayMs (preMs (w.rand (2 * i))) :: (sendBlock w img cap g i).1
        ++ Ev.delayMs (postMs (w.rand (2 * i + 1))) :: (runSendLoop w cap img rest (i + 1)).1,
       (sendBlock w img cap g i).2 :: (runSendLoop w cap img rest (i + 1)).2) := rfl

/-- Every block consists of exactly one send call, addressed to its
destination, and the recorded outcome carries that destination. -/
lemma sendBlock_one (w : World) (img : Option JStr) (cap g : JStr) (i : ℕ) :
    ∃ e, (sendBlock w img cap g i).1 = [e] ∧ evTarget e = some g ∧
      (sendBlock w img cap g i).2.dest = g := by
  cases img with
  | some b64 =>
    cases h : w.imageSendRes i with
    | error er =>
      exact ⟨Ev.sendImage g b64 cap, by simp [sendBlock, h], rfl, by simp [sendBlock, h]⟩
    | ok erro =>
      exact ⟨Ev.sendImage g b64 cap, by simp [sendBlock, h], rfl, by simp [sendBlock, h]⟩
  | none =>
    cases h : w.textSendRes i with
    | error er =>
      exact ⟨Ev.sendText g cap, by simp [sendBlock, h], rfl, by simp [sendBlock, h]⟩
    | ok erro =>
      exact ⟨Ev.sendText g cap, by simp [sendBlock, h], rfl, by simp [sendBlock, h]⟩

/-- The loop sends to every destination exactly once, in order, and records
one outcome per destination in the same order, whatever the client answers. -/
lemma runSendLoop_targets (w : World) (cap : JStr) (img : Option JStr) :
    ∀ (gs : List JStr) (i : ℕ),
      sendTargets (runSendLoop w cap img gs i).1 = gs ∧
      (runSendLoop w cap img gs i).2.map Outcome.dest = gs := by
  intro gs
  induction gs with
  | nil => intro i; exact ⟨rfl, rfl⟩
  | cons g rest ih =>
    intro i
    obtain ⟨h1, h2⟩ := ih (i + 1)
    obtain ⟨e, he1, he2, he3⟩ := sendBlock_one w img cap g i
    rw [runSendLoop_cons]
    constructor
    · simp only [sendTargets] at h1 ⊢
      simp [he1, List.filterMap_cons, List.filterMap_append, he2, h1]
    · simp [he3, h2]

/-- With an image payload resolved, the loop makes no text call at all and
its outcomes are exactly the image-branch outcomes. -/
lemma runSendLoop_image (w : World) (cap b64 : JStr) :
    ∀ (gs : List JStr) (i : ℕ),
      textTargets (runSendLoop w cap (some b64) gs i).1 = [] ∧
      (runSendLoop w cap (some b64) gs i).2 = imgOutcomes w gs i := by
  intro gs
  induction gs with
  | nil => intro i; exact ⟨rfl, rfl⟩
  | cons g rest ih =>
    intro i
    obtain ⟨h1, h2⟩ := ih (i + 1)
    rw [runSendLoop_cons]
    cases h : w.imageSendRes i with
    | error er =>
      constructor
      · simp only [textTargets] at h1 ⊢
        simp [sendBlock, h, List.filterMap_cons, List.filterMap_append, h1]
      · simp [sendBlock, h, imgOutcomes, imgOutcomeAt, h2]
    | ok erro =>
      constructor
      · simp only [textTargets] at h1 ⊢
        simp [sendBlock, h, List.filterMap_cons, List.filterMap_append, h1]
      · simp [sendBlock, h, imgOutcomes, imgOutcomeAt, h2]

/-- With no image payload, the loop makes no image call and every outcome is
a text outcome. -/
lemma runSendLoop_text (w : World) (cap : JStr) :
    ∀ (gs : List JStr) (i : ℕ),
      imageTargets (runSendLoop w cap none gs i).1 = [] ∧
      (runSendLoop w cap none gs i).2.map Outcome.mode = gs.map (fun _ => Mode.text) := by
  intro gs
  induction gs with
  | nil => intro i; exact ⟨rfl, rfl⟩
  | cons g rest ih =>
    intro i
    obtain ⟨h1, h2⟩ := ih (i + 1)
    rw [runSendLoop_cons]
    cases h : w.textSendRes i with
    | error er =>
      constructor
      · simp only [imageTargets] at h1 ⊢
        simp [sendBlock, h, List.filterMap_cons, List.filterMap_append, h1]
      · simp [sendBlock, h, h2]
    | ok erro =>
      constructor
      · simp only [imageTargets] at h1 ⊢
        simp [sendBlock, h, List.filterMap_cons, List.filterMap_append, h1]
      · simp [sendBlock, h, h2]

/-- The loop never fetches. -/
lemma runSendLoop_no_fetch (w : World) (cap : JStr) (img : Option JStr) :
    ∀ (gs : List JStr) (i : ℕ),
      (runSendLoop w cap img gs i).1.filter isFetchEv = [] := by
  intro gs
  induction gs with
  | nil => intro i; rfl
  | cons g rest ih =>
    intro i
    obtain ⟨e, he1, he2, -⟩ := sendBlock_one w img cap g i
    have hf : isFetchEv e = false := by
      cases e with
      | fetchImage u => simp [evTarget] at he2
      | isConnectedCall => rfl
      | delayMs n => rfl
      | sendImage a b c => rfl
      | sendText a b => rfl
    rw [runSendLoop_cons]
    simp [he1, List.filter_cons, List.filter_append, hf, ih (i + 1)]

/-- Shape of a dispatch that passes the readiness and raw-group gates. -/
lemma dispatch_connected (w : World) (df : List JStr) (aff : JStr) (p : SendReq)
    (hc : w.clientPresent = true) (hr : w.readyOutcome = Except.ok true)
    (hraw : (rawGroups df p).isEmpty = false) :
    dispatch w df aff p =
      ⟨.okAttempted,
        .isConnectedCall ::
          ((match resolvedImageUrl p with
            | some u => [Ev.fetchImage u]
            | none => []) ++
           (match p.delayBefore with
            | some v => [Ev.delayMs (max 0 v).toNat]
            | none => []) ++
           (runSendLoop w (buildCaption aff p)
             (match resolvedImageUrl p with
              | some u => fetchBase64 w u
              | none => none) (normalizedGroups df p) 0).1),
        (runSendLoop w (buildCaption aff p)
          (match resolvedImageUrl p with
           | some u => fetchBase64 w u
           | none => none) (normalizedGroups df p) 0).2⟩ := by
  unfold dispatch
  rw [hc, hr, hraw]
  simp

/-! ### Claims C2, C3, C4 about the dispatcher -/

/-- Claim C2: with the session connected and a non-empty normalized
destination list, dispatch attempts delivery to every destination exactly
once, strictly in input order, duplicates included, and no per-destination
failure aborts the remaining destinations (the conclusion holds for every
client-answer oracle, including ones that throw for every destination). -/
theorem dispatch_attempts_each_destination (w : World) (df : List JStr)
    (aff : JStr) (p : SendReq)
    (hc : w.clientPresent = true) (hr : w.readyOutcome = Except.ok true)
    (hne : normalizedGroups df p ≠ []) :
    (dispatch w df aff p).resp = ApiResponse.okAttempted ∧
    sendTargets (dispatch w df aff p).evs = normalizedGroups df p ∧
    (dispatch w df aff p).outs.map Outcome.dest = normalizedGroups df p := by
  have hraw : (rawGroups df p).isEmpty = false := by
    rw [List.isEmpty_eq_false]
    intro h0
    exact hne (by unfold normalizedGroups; rw [h0]; rfl)
  rw [dispatch_connected w df aff p hc hr hraw]
  obtain ⟨hT, hO⟩ := runSendLoop_targets w (buildCaption aff p)
    (match resolvedImageUrl p with
     | some u => fetchBase64 w u
     | none => none) (normalizedGroups df p) 0
  refine ⟨rfl, ?_, hO⟩
  rw [sendTargets_skip_front]
  exact hT

/-- Witness for C2 at a concrete connected world with a duplicated
destination: both copies are attempted, in order, even though every client
call throws. -/
def w2c : World :=
  { clientPresent := true
    readyOutcome := .ok true
    fetch := fun _ => .threw "net down".toList
    imageSendRes := fun _ => .error "img fail".toList
    textSendRes := fun _ => .error "text fail".toList
    rand := fun _ => 0 }

/-- Request for the C2 witness: the same destination twice. -/
def req2c : SendReq := { emptyReq with groupIds := some ["123".toList, "123".toList] }

/-- Witness for C2. -/
theorem dispatch_attempts_each_destination_witness :
    (dispatch w2c [] [] req2c).resp = ApiResponse.okAttempted ∧
    sendTargets (dispatch w2c [] [] req2c).evs =
      ["123@g.us".toList, "123@g.us".toList] ∧
    (dispatch w2c [] [] req2c).outs.map Outcome.dest =
      ["123@g.us".toList, "123@g.us".toList] := by
  obtain ⟨a, b, c⟩ :=
    dispatch_attempts_each_destination w2c [] [] req2c rfl rfl (by decide)
  have hn : normalizedGroups [] req2c = ["123@g.us".toList, "123@g.us".toList] := by decide
  exact ⟨a, by rw [b, hn], by rw [c, hn]⟩

/-- Claim C3: when the session reports not connected, dispatch answers
NotReady after the single readiness probe and issues no send call at all. -/
theorem dispatch_not_ready (w : World) (df : List JStr) (aff : JStr) (p : SendReq)
    (hc : w.clientPresent = true) (hr : w.readyOutcome = Except.ok false) :
    dispatch w df aff p = ⟨ApiResponse.notReady, [Ev.isConnectedCall], []⟩ ∧
    sendTargets (dispatch w df aff p).evs = [] := by
  have h : dispatch w df aff p = ⟨ApiResponse.notReady, [Ev.isConnectedCall], []⟩ := by
    unfold dispatch
    rw [hc, hr]
    simp
  exact ⟨h, by rw [h]; rfl⟩

/-- World for the C3 witness: the client is present but reports
`isConnected() === false`. -/
def w3c : World :=
  { clientPresent := true
    readyOutcome := .ok false
    fetch := fun _ => .threw []
    imageSendRes := fun _ => .ok false
    textSendRes := fun _ => .ok false
    rand := fun _ => 0 }

/-- Witness for C3. -/
theorem dispatch_not_ready_witness :
    dispatch w3c ["123".toList] [] emptyReq =
      ⟨ApiResponse.notReady, [Ev.isConnectedCall], []⟩ ∧
    sendTargets (dispatch w3c ["123".toList] [] emptyReq).evs = [] :=
  dispatch_not_ready w3c ["123".toList] [] emptyReq rfl rfl

/-- Claim C4 (amended): the emptiness check runs on the raw list before
normalization. A raw-empty list is reported as a NoDestinations error with
nothing sent; but a list that becomes empty only after normalization slips
past the check and the call completes as a silent no-op — an OK response
with zero sends and zero outcomes. -/
theorem empty_groups_check (w : World) (df : List JStr) (aff : JStr) (p : SendReq)
    (hc : w.clientPresent = true) (hr : w.readyOutcome = Except.ok true) :
    (rawGroups df p = [] →
      dispatch w df aff p = ⟨ApiResponse.noGroups, [Ev.isConnectedCall], []⟩) ∧
    (rawGroups df p ≠ [] → normalizedGroups df p = [] →
      (dispatch w df aff p).resp = ApiResponse.okAttempted ∧
      sendTargets (dispatch w df aff p).evs = [] ∧
      (dispatch w df aff p).outs = []) := by
  constructor
  · intro h0
    unfold dispatch
    rw [hc, hr]
    have : (rawGroups df p).isEmpty = true := by rw [h0]; rfl
    rw [this]
    simp
  · intro hne hnorm
    have hraw : (rawGroups df p).isEmpty = false := by
      rw [List.isEmpty_eq_false]; exact hne
    rw [dispatch_connected w df aff p hc hr hraw]
    rw [hnorm]
    refine ⟨rfl, ?_, rfl⟩
    simp only [sendTargets]
    cases hu : resolvedImageUrl p <;> cases hd : p.delayBefore <;>
      simp [hu, hd, List.filterMap_cons, List.filterMap_append, evTarget, runSendLoop]

/-- World for the C4 theorems: connected, fetch always fails. -/
def w4c : World :=
  { clientPresent := true
    readyOutcome := .ok true
    fetch := fun _ => .threw "net".toList
    imageSendRes := fun _ => .ok false
    textSendRes := fun _ => .ok false
    rand := fun _ => 0 }

/-- Request whose destination list is non-empty raw but empty after
normalization: it holds a single empty string. -/
def req4c : SendReq := { emptyReq with groupIds := some [[]] }

/-- Counterexample to C4 as stated: a list that becomes empty only after
normalization is NOT reported as a NoDestinations error — the call returns
the OK response with zero sends (a silent no-op). -/
theorem noop_after_normalization_counterexample :
    rawGroups [] req4c ≠ [] ∧
    normalizedGroups [] req4c = [] ∧
    (dispatch w4c [] [] req4c).resp = ApiResponse.okAttempted ∧
    (dispatch w4c [] [] req4c).resp ≠ ApiResponse.noGroups ∧
    sendTargets (dispatch w4c [] [] req4c).evs = [] ∧
    (dispatch w4c [] [] req4c).outs = [] := by
  refine ⟨by decide, by decide, ?_, ?_, ?_, ?_⟩ <;> decide

/-- Witness for the amended C4 theorem. -/
theorem empty_groups_check_witness :
    dispatch w4c [] [] emptyReq = ⟨ApiResponse.noGroups, [Ev.isConnectedCall], []⟩ ∧
    (dispatch w4c [] [] req4c).resp = ApiResponse.okAttempted ∧
    sendTargets (dispatch w4c [] [] req4c).evs = [] := by
  obtain ⟨h1, -⟩ := empty_groups_check w4c [] [] emptyReq rfl rfl
  obtain ⟨-, h2⟩ := empty_groups_check w4c [] [] req4c rfl rfl
  obtain ⟨a, b, -⟩ := h2 (by decide) (by decide)
  exact ⟨h1 rfl, a, b⟩

/-! ### The draft dispatcher loop from `unnamed/part_000` (lines 105-137) -/

/-- Oracles for the draft loop: per-destination image fetch, image send and
text send results, and the random stream for its single post-send delay. -/
structure P0World where
  fetchRes : ℕ → Except JsErr (List ℕ)
  imageRes : ℕ → Except JsErr Unit
  textRes : ℕ → Except JsErr Unit
  rand : ℕ → ℚ

/-- `2000 + Math.floor(Math.random() * 2000)` (part_000 line 134). -/
def p0Delay (q : ℚ) : ℕ := 2000 + (⌊q * 2000⌋).toNat

/-- Inline normalization of part_000 line 107:
`group.includes("@g.us") ? group.trim() : group.trim() + "@g.us"`. -/
def part000Norm (g : JStr) : JStr :=
  if hasSubstr g gUs then jsTrim g else jsTrim g ++ gUs

/-- One destination of the part_000 loop: with an image URL, the fetch and
image send run in a `try` whose `catch` falls back to an unwrapped text send
to the same destination; without one, an unwrapped text send. The second
component is the error that aborts the whole loop, if one was thrown
outside any `try`. -/
def part000Block (w : P0World) (imageUrl : Option JStr) (msg : JStr)
    (g : JStr) (i : ℕ) : List Ev × Option JsErr :=
  match imageUrl with
  | some u =>
      match w.fetchRes i with
      | .error _ =>
          (match w.textRes i with
           | .ok _ => ([.fetchImage u, .sendText (part000Norm g) msg], none)
           | .error e => ([.fetchImage u, .sendText (part000Norm g) msg], some e))
      | .ok bytes =>
          match w.imageRes i with
          | .ok _ =>
              ([.fetchImage u,
                .sendImage (part000Norm g)
                  ("data:image/jpeg;base64,".toList ++ base64Chunks bytes) msg], none)
          | .error _ =>
              (match w.textRes i with
               | .ok _ =>
                   ([.fetchImage u,
                     .sendImage (part000Norm g)
                       ("data:image/jpeg;base64,".toList ++ base64Chunks bytes) msg,
                     .sendText (part000Norm g) msg], none)
               | .error e =>
                   ([.fetchImage u,
                     .sendImage (part000Norm g)
                       ("data:image/jpeg;base64,".toList ++ base64Chunks bytes) msg,
                     .sendText (part000Norm g) msg], some e))
  | none =>
      match w.textRes i with
      | .ok _ => ([.sendText (part000Norm g) msg], none)
      | .error e => ([.sendText (part000Norm g) msg], some e)

/-- The part_000 send loop: per destination the block above, then a random
delay, then the rest; an uncaught error aborts the remaining destinations. -/
def part000Loop (w : P0World) (imageUrl : Option JStr) (msg : JStr) :
    List JStr → ℕ → List Ev × Option JsErr
  | [], _ => ([], none)
  | g :: rest, i =>
      match part000Block w imageUrl msg g i with
      | (evs, some e) => (evs, some e)
      | (evs, none) =>
          let next := part000Loop w imageUrl msg rest (i + 1)
          (evs ++ Ev.delayMs (p0Delay (w.rand i)) :: next.1, next.2)

/-! ### The base64 size check from `unnamed/part_001` (lines 90-103) -/

/-- The primary base64 data URI built by part_001. -/
def part001Base64 (bytes : List ℕ) : JStr :=
  "data:image/jpeg;base64,".toList ++ base64Chunks bytes

/-- part_001's size check: `if (!base64Image || base64Image.length < 500)`
the base64 string is replaced by a fetched placeholder encoded as an SVG
data URI — still an image payload, never a text degradation. -/
def part001SelectImage (bytes placeholderBytes : List ℕ) : JStr :=
  if (part001Base64 bytes).isEmpty || (part001Base64 bytes).length < 500 then
    "data:image/svg+xml;base64,".toList ++ base64Chunks placeholderBytes
  else part001Base64 bytes

/-! ### Session status handlers (`wppconnect.create` callbacks, lines 286-311) -/

/-- The mutable `qrRef` global: login artifact and connection flag. -/
structure QrRef where
  code : Option JStr
  connected : Bool
deriving DecidableEq, Repr

/-- The QR-render indirection of `catchQR`: the challenge code is wrapped in
a chart-service URL (`encodeURIComponent` is the external encoder `enc`). -/
def qrServerUrl (enc : JStr → JStr) (urlCode : JStr) : JStr :=
  "https://api.qrserver.com/v1/create-qr-code/?data=".toList ++ enc urlCode
    ++ "&size=300x300".toList

/-- `catchQR` (lines 286-295): stores a fresh login artifact. -/
def catchQR (enc : JStr → JStr) (urlCode : JStr) (s : QrRef) : QrRef :=
  { s with code := some (qrServerUrl enc urlCode) }

/-- `onStateChange` (lines 299-304): flips `connected` off on a disconnect
or unpair state, touching nothing else. -/
def onStateChange (state : JStr) (s : QrRef) : QrRef :=
  if state = "DISCONNECTED".toList ∨ state = "UNPAIRED".toList then
    { s with connected := false }
  else s

/-- `onConnected` (lines 305-308). -/
def onConnected (s : QrRef) : QrRef := { s with connected := true }

/-- `onLogout` (lines 309-311). -/
def onLogout (s : QrRef) : QrRef := { s with connected := false }

/-! ### `safeCall` (lines 59-66) -/

/-- The tagged result `safeCall` resolves with. -/
inductive SafeResult (ε α : Type)
  | ok (result : α)
  | err (error : ε)
deriving DecidableEq, Repr

/-- JavaScript `try`/`catch` over a computation that either returns or throws. -/
def jsTry {ε α : Type} (body : Except ε α) (handler : ε → Except ε α) : Except ε α :=
  match body with
  | .ok a => .ok a
  | .error e => handler e

/-- `safeCall(fn)`: run `fn`, tag a normal completion as `ok` and a thrown
rejection as `err`; the wrapper itself never rejects. -/
def safeCall {ε α : Type} (fn : Unit → Except ε α) : Except ε (SafeResult ε α) :=
  jsTry (Except.map SafeResult.ok (fn ())) (fun e => .ok (.err e))

/-- Whether a computation completed without throwing. -/
def neverThrew {ε α : Type} : Except ε α → Bool
  | .ok _ => true
  | .error _ => false

/-! ### `createMessage` from `src/message-sample.js` (lines 14-30) -/

/-- The FOMO caption builder: a fixed template over the deal fields and the
affiliate tag, trimmed at the end. -/
def createMessage (deal : Deal) (affiliateId : JStr) : JStr :=
  jsTrim ("\n💥 *".toList ++ deal.name
    ++ "* 💥\n\n🔥 Price Drop Alert!  \n💰 *Now only ₹".toList
    ++ natToJStr deal.price ++ "* (Save ".toList ++ natToJStr deal.discount
    ++ "%)\n\n🎯 _Limited Time Offer!_  \n🛍️ Click here to grab the deal:  \n👉 ".toList
    ++ deal.link ++ "\n\n".toList
    ++ (if affiliateId.isEmpty then [] else "🔖 Tag: #".toList ++ affiliateId)
    ++ "\n🚀 Hurry up! Before it’s gone! ⏰\n  ".toList)

/-! ### Claim C6: whole-campaign degradation on fetch failure -/

/-- Image targets ignore the probe/fetch/global-delay trace prefix. -/
lemma imageTargets_skip_front (u : JStr) (d : Option Int) (l : List Ev) :
    imageTargets (Ev.isConnectedCall ::
      ([Ev.fetchImage u] ++
       (match d with | some v => [Ev.delayMs (max 0 v).toNat] | none => []) ++ l)) =
    imageTargets l := by
  cases d <;> simp [imageTargets, List.filterMap_cons, List.filterMap_append]

/-- The trace prefix carries exactly one fetch. -/
lemma fetchCount_skip_front (u : JStr) (d : Option Int) (l : List Ev) :
    fetchCount (Ev.isConnectedCall ::
      ([Ev.fetchImage u] ++
       (match d with | some v => [Ev.delayMs (max 0 v).toNat] | none => []) ++ l)) =
    1 + fetchCount l := by
  cases d <;>
    simp [fetchCount, List.filter_cons, List.filter_append, isFetchEv, Nat.add_comm]

/-- Claim C6 (amended): if the image fetch throws or returns no data, the
whole campaign degrades to text-only — no image call for any destination,
every outcome in text mode, every destination still receiving its attempt,
the fetch made exactly once and never retried per destination — and the call
completes with the OK response. The main dispatcher applies no minimum-size
threshold to the payload; the draft size check of `unnamed/part_001`
substitutes a placeholder image (still image mode) for an undersized base64
string rather than degrading to text. -/
theorem fetch_failure_text_degradation (w : World) (df : List JStr) (aff : JStr)
    (p : SendReq) (u : JStr)
    (hc : w.clientPresent = true) (hr : w.readyOutcome = Except.ok true)
    (hraw : rawGroups df p ≠ [])
    (hu : resolvedImageUrl p = some u)
    (hf : (∃ m, w.fetch u = FetchOutcome.threw m) ∨ w.fetch u = FetchOutcome.emptyData) :
    (dispatch w df aff p).resp = ApiResponse.okAttempted ∧
    imageTargets (dispatch w df aff p).evs = [] ∧
    (dispatch w df aff p).outs.map Outcome.mode =
      (normalizedGroups df p).map (fun _ => Mode.text) ∧
    (dispatch w df aff p).outs.map Outcome.dest = normalizedGroups df p ∧
    fetchCount (dispatch w df aff p).evs = 1 ∧
    (∀ bytes placeholder : List ℕ, (part001Base64 bytes).length < 500 →
      part001SelectImage bytes placeholder =
        "data:image/svg+xml;base64,".toList ++ base64Chunks placeholder) := by
  have hb : fetchBase64 w u = none := by
    rcases hf with ⟨m, hm⟩ | hm <;> simp [fetchBase64, hm]
  have hrawE : (rawGroups df p).isEmpty = false := by
    rw [List.isEmpty_eq_false]; exact hraw
  rw [dispatch_connected w df aff p hc hr hrawE]
  simp only [hu, hb]
  obtain ⟨hI, hM⟩ := runSendLoop_text w (buildCaption aff p) (normalizedGroups df p) 0
  obtain ⟨-, hD⟩ := runSendLoop_targets w (buildCaption aff p) none (normalizedGroups df p) 0
  refine ⟨by trivial, ?_, hM, hD, ?_, ?_⟩
  · rw [imageTargets_skip_front]
    exact hI
  · rw [fetchCount_skip_front]
    have h0 : fetchCount (runSendLoop w (buildCaption aff p) none
        (normalizedGroups df p) 0).1 = 0 := by
      unfold fetchCount
      rw [runSendLoop_no_fetch]
      rfl
    rw [h0]
  · intro bytes pb h
    simp [part001SelectImage, h]

/-- Connected world whose image fetch always throws (for the C6 witness). -/
def w6a : World :=
  { clientPresent := true
    readyOutcome := .ok true
    fetch := fun _ => .threw "timeout".toList
    imageSendRes := fun _ => .ok false
    textSendRes := fun _ => .ok false
    rand := fun _ => 0 }

/-- Connected world whose image fetch returns a single byte (for the C6
counterexample). -/
def w6b : World :=
  { clientPresent := true
    readyOutcome := .ok true
    fetch := fun _ => .got [65] none
    imageSendRes := fun _ => .ok false
    textSendRes := fun _ => .ok false
    rand := fun _ => 0 }

/-- Request used by the C6 theorems. -/
def req6c : SendReq := { emptyReq with groupIds := some ["123".toList] }

/-- Counterexample to C6 as stated: a payload far below any plausible
minimum-size threshold (one byte; its base64 data URI is shorter than the
500-character bound the draft uses) is still delivered as an image by the
dispatcher — the campaign does not degrade to text for undersized payloads. -/
theorem undersized_payload_counterexample :
    (part001Base64 [65]).length < 500 ∧
    imageTargets (dispatch w6b [] [] req6c).evs = ["123@g.us".toList] ∧
    (dispatch w6b [] [] req6c).outs.map Outcome.mode = [Mode.image] ∧
    textTargets (dispatch w6b [] [] req6c).evs = [] := by
  refine ⟨?_, ?_, ?_, ?_⟩ <;> decide

/-- Witness for the amended C6 theorem. -/
theorem fetch_failure_text_degradation_witness :
    (dispatch w6a [] [] req6c).resp = ApiResponse.okAttempted ∧
    imageTargets (dispatch w6a [] [] req6c).evs = [] ∧
    fetchCount (dispatch w6a [] [] req6c).evs = 1 := by
  obtain ⟨a, b, -, -, c, -⟩ :=
    fetch_failure_text_degradation w6a [] [] req6c sampleDeal.image rfl rfl
      (by decide) rfl (Or.inl ⟨"timeout".toList, rfl⟩)
  exact ⟨a, b, c⟩

/-! ### Claim C7: pacing delays -/

/-- Pre-send delay bounds. -/
lemma preMs_bounds (q : ℚ) (h0 : 0 ≤ q) (h1 : q < 1) :
    500 ≤ preMs q ∧ preMs q < 1300 := by
  have ha : 0 ≤ ⌊q * 800⌋ := Int.floor_nonneg.mpr (by nlinarith)
  have hb : ⌊q * 800⌋ < 800 := by
    rw [Int.floor_lt]
    push_cast
    linarith
  unfold preMs
  omega

/-- Post-send delay bounds. -/
lemma postMs_bounds (q : ℚ) (h0 : 0 ≤ q) (h1 : q < 1) :
    1500 ≤ postMs q ∧ postMs q < 4000 := by
  have ha : 0 ≤ ⌊q * 2500⌋ := Int.floor_nonneg.mpr (by nlinarith)
  have hb : ⌊q * 2500⌋ < 2500 := by
    rw [Int.floor_lt]
    push_cast
    linarith
  unfold postMs
  omega

/-- Claim C7: every destination's attempt is preceded by a randomized
pre-send delay in `[500, 1300)` ms and followed — success or failure — by a
longer randomized delay in `[1500, 4000)` ms before the next destination;
every value in each range is attainable, and every possible post-send delay
exceeds every possible pre-send delay. -/
theorem pacing_delay_bounds :
    (∀ q : ℚ, 0 ≤ q → q < 1 → 500 ≤ preMs q ∧ preMs q < 1300) ∧
    (∀ q : ℚ, 0 ≤ q → q < 1 → 1500 ≤ postMs q ∧ postMs q < 4000) ∧
    (∀ q r : ℚ, 0 ≤ q → q < 1 → 0 ≤ r → r < 1 → preMs q < postMs r) ∧
    (∀ k : ℕ, 500 ≤ k → k < 1300 → ∃ q : ℚ, 0 ≤ q ∧ q < 1 ∧ preMs q = k) ∧
    (∀ k : ℕ, 1500 ≤ k → k < 4000 → ∃ q : ℚ, 0 ≤ q ∧ q < 1 ∧ postMs q = k) ∧
    (∀ (w : World) (cap : JStr) (img : Option JStr) (g : JStr) (rest : List JStr)
       (i : ℕ),
      runSendLoop w cap img (g :: rest) i =
        (Ev.delayMs (preMs (w.rand (2 * i))) :: (sendBlock w img cap g i).1
          ++ Ev.delayMs (postMs (w.rand (2 * i + 1))) ::
              (runSendLoop w cap img rest (i + 1)).1,
         (sendBlock w img cap g i).2 :: (runSendLoop w cap img rest (i + 1)).2) ∧
      ∃ e, (sendBlock w img cap g i).1 = [e] ∧ evTarget e = some g) := by
  refine ⟨preMs_bounds, postMs_bounds, ?_, ?_, ?_, ?_⟩
  · intro q r hq0 hq1 hr0 hr1
    have h1 := (preMs_bounds q hq0 hq1).2
    have h2 := (postMs_bounds r hr0 hr1).1
    omega
  · intro k h5 h13
    refine ⟨((k : ℚ) - 500) / 800, ?_, ?_, ?_⟩
    · apply div_nonneg _ (by norm_num)
      have : (500 : ℚ) ≤ (k : ℚ) := by exact_mod_cast h5
      linarith
    · rw [div_lt_one (by norm_num)]
      have : (k : ℚ) < 1300 := by exact_mod_cast h13
      linarith
    · unfold preMs
      have he : ((k : ℚ) - 500) / 800 * 800 = (k : ℚ) - 500 := by field_simp
      rw [he]
      have hcast : (k : ℚ) - 500 = (((k : ℤ) - 500 : ℤ) : ℚ) := by push_cast; ring
      rw [hcast, Int.floor_intCast]
      omega
  · intro k h15 h40
    refine ⟨((k : ℚ) - 1500) / 2500, ?_, ?_, ?_⟩
    · apply div_nonneg _ (by norm_num)
      have : (1500 : ℚ) ≤ (k : ℚ) := by exact_mod_cast h15
      linarith
    · rw [div_lt_one (by norm_num)]
      have : (k : ℚ) < 4000 := by exact_mod_cast h40
      linarith
    · unfold postMs
      have he : ((k : ℚ) - 1500) / 2500 * 2500 = (k : ℚ) - 1500 := by field_simp
      rw [he]
      have hcast : (k : ℚ) - 1500 = (((k : ℤ) - 1500 : ℤ) : ℚ) := by push_cast; ring
      rw [hcast, Int.floor_intCast]
      omega
  · intro w cap img g rest i
    obtain ⟨e, he1, he2, -⟩ := sendBlock_one w img cap g i
    exact ⟨runSendLoop_cons w cap img g rest i, e, he1, he2⟩

/-- Witness for C7 at concrete random draws and a concrete loop input. -/
theorem pacing_delay_bounds_witness :
    (500 ≤ preMs 0 ∧ preMs 0 < 1300) ∧
    (1500 ≤ postMs (1/2) ∧ postMs (1/2) < 4000) ∧
    preMs 0 < postMs (1/2) ∧
    (∃ q : ℚ, 0 ≤ q ∧ q < 1 ∧ preMs q = 1299) := by
  refine ⟨pacing_delay_bounds.1 0 le_rfl (by norm_num),
    pacing_delay_bounds.2.1 (1/2) (by norm_num) (by norm_num),
    pacing_delay_bounds.2.2.1 0 (1/2) le_rfl (by norm_num) (by norm_num) (by norm_num),
    pacing_delay_bounds.2.2.2.1 1299 (by norm_num) (by norm_num)⟩

/-! ### Claim C1: behavior on image-delivery failure -/

/-- Claim C1 (amended): in the main dispatcher's loop, once an image payload
is resolved there is no per-destination text fallback at all — an
image-delivery failure leaves that destination's outcome in image mode,
undelivered, and the loop simply proceeds to the remaining destinations
(every destination still gets its single image attempt). The per-destination
image-to-text fallback exists only in the draft loop of `unnamed/part_000`,
where a failed image attempt is followed by a text send to the same
destination before the loop moves on to the rest. -/
theorem image_failure_no_fallback :
    (∀ (w : World) (cap b64 : JStr) (gs : List JStr) (i : ℕ),
      textTargets (runSendLoop w cap (some b64) gs i).1 = [] ∧
      sendTargets (runSendLoop w cap (some b64) gs i).1 = gs ∧
      (runSendLoop w cap (some b64) gs i).2 = imgOutcomes w gs i) ∧
    (∀ (w : World) (i : ℕ) (g : JStr) (e : JsErr),
      w.imageSendRes i = Except.error e →
      imgOutcomeAt w i g = ⟨g, Mode.image, false⟩) ∧
    (∀ (w : P0World) (u msg g : JStr) (rest : List JStr) (i : ℕ)
       (bytes : List ℕ) (e : JsErr),
      w.fetchRes i = Except.ok bytes → w.imageRes i = Except.error e →
      w.textRes i = Except.ok () →
      part000Loop w (some u) msg (g :: rest) i =
        ([Ev.fetchImage u,
          Ev.sendImage (part000Norm g)
            ("data:image/jpeg;base64,".toList ++ base64Chunks bytes) msg,
          Ev.sendText (part000Norm g) msg]
          ++ Ev.delayMs (p0Delay (w.rand i)) ::
              (part000Loop w (some u) msg rest (i + 1)).1,
         (part000Loop w (some u) msg rest (i + 1)).2)) := by
  refine ⟨?_, ?_, ?_⟩
  · intro w cap b64 gs i
    obtain ⟨h1, h2⟩ := runSendLoop_image w cap b64 gs i
    exact ⟨h1, (runSendLoop_targets w cap (some b64) gs i).1, h2⟩
  · intro w i g e h
    simp [imgOutcomeAt, h]
  · intro w u msg g rest i bytes e hfr hir htr
    simp [part000Loop, part000Block, hfr, hir, htr]

/-- Connected world where the image resolves but every image send throws and
every text send would succeed. -/
def w1c : World :=
  { clientPresent := true
    readyOutcome := .ok true
    fetch := fun _ => .got [65] none
    imageSendRes := fun _ => .error "send failed".toList
    textSendRes := fun _ => .ok false
    rand := fun _ => 0 }

/-- Request used by the C1 theorems. -/
def req1c : SendReq := { emptyReq with groupIds := some ["123".toList] }

/-- Draft-loop world for the C1 witness: fetch succeeds, image send throws,
text send succeeds. -/
def pw1 : P0World :=
  { fetchRes := fun _ => .ok [65]
    imageRes := fun _ => .error "img".toList
    textRes := fun _ => .ok ()
    rand := fun _ => 0 }

/-- Counterexample to C1 as stated: in the main dispatcher, with the image
payload resolved, the image send for the (only) destination throws while a
text send would have succeeded — yet no text call is ever made and the
outcome stays in image mode, undelivered. -/
theorem image_fallback_counterexample :
    (dispatch w1c [] [] req1c).resp = ApiResponse.okAttempted ∧
    textTargets (dispatch w1c [] [] req1c).evs = [] ∧
    imageTargets (dispatch w1c [] [] req1c).evs = ["123@g.us".toList] ∧
    (dispatch w1c [] [] req1c).outs =
      [⟨"123@g.us".toList, Mode.image, false⟩] := by
  refine ⟨?_, ?_, ?_, ?_⟩ <;> decide

/-- Witness for the amended C1 theorem: the no-fallback conclusion at a
concrete loop input, the failed-image outcome at a concrete oracle, and the
draft loop's fallback equation at a concrete draft world. -/
theorem image_failure_no_fallback_witness :
    textTargets (runSendLoop w1c "c".toList (some "b".toList) ["g".toList] 0).1 = [] ∧
    imgOutcomeAt w1c 0 "g".toList = ⟨"g".toList, Mode.image, false⟩ ∧
    part000Loop pw1 (some "u".toList) "m".toList ["g".toList] 0 =
      ([Ev.fetchImage "u".toList,
        Ev.sendImage (part000Norm "g".toList)
          ("data:image/jpeg;base64,".toList ++ base64Chunks [65]) "m".toList,
        Ev.sendText (part000Norm "g".toList) "m".toList]
        ++ Ev.delayMs (p0Delay (pw1.rand 0)) ::
            (part000Loop pw1 (some "u".toList) "m".toList [] 1).1,
       (part000Loop pw1 (some "u".toList) "m".toList [] 1).2) := by
  refine ⟨(image_failure_no_fallback.1 w1c "c".toList "b".toList ["g".toList] 0).1,
    image_failure_no_fallback.2.1 w1c 0 "g".toList "send failed".toList rfl,
    image_failure_no_fallback.2.2 pw1 "u".toList "m".toList "g".toList [] 0 [65]
      "img".toList rfl rfl rfl⟩

/-! ### Claim C8: deterministic message composition -/

/-- Claim C8: message composition is a pure, deterministic function of the
optional input fields — two invocations on identical field assignments are
byte-identical — with parts assembled in a fixed template order (title,
price, body, link, urgency, tag) and the conditional parts omitted when
empty; the sample `createMessage` template is deterministic in the same
sense. -/
theorem composition_deterministic :
    (∀ (aff : JStr) (p q : SendReq),
      p.message = q.message → p.title = q.title → p.body = q.body →
      p.description = q.description → p.details = q.details → p.link = q.link →
      p.url = q.url → p.urgency = q.urgency → p.price = q.price →
      buildCaption aff p = buildCaption aff q) ∧
    (∀ affId title priceLine bodyTxt link urgency : JStr,
      priceLine ≠ [] → bodyTxt ≠ [] → link ≠ [] →
      composeCaption affId title priceLine bodyTxt link urgency =
        sepJoin "\n\n".toList
          ["🔥 *".toList ++ title ++ "*".toList,
           "💸 ".toList ++ priceLine,
           bodyTxt,
           "👉 Buy: ".toList ++ link,
           urgency,
           "🔖 ".toList ++ (if affId.isEmpty then "LootAlert".toList
             else "#".toList ++ affId)]) ∧
    (∀ affId title urgency : JStr,
      composeCaption affId title [] [] [] urgency =
        sepJoin "\n\n".toList
          ["🔥 *".toList ++ title ++ "*".toList,
           urgency,
           "🔖 ".toList ++ (if affId.isEmpty then "LootAlert".toList
             else "#".toList ++ affId)]) ∧
    (∀ (d e : Deal) (tag tag2 : JStr),
      d.name = e.name → d.price = e.price → d.discount = e.discount →
      d.link = e.link → tag = tag2 → createMessage d tag = createMessage e tag2) := by
  refine ⟨?_, ?_, ?_, ?_⟩
  · intro aff p q h1 h2 h3 h4 h5 h6 h7 h8 h9
    simp only [buildCaption, resolveTitle, resolveBody, resolveLink,
      resolveUrgency, resolvePriceLine, h1, h2, h3, h4, h5, h6, h7, h8, h9]
  · intro affId title priceLine bodyTxt link urgency hp hb hl
    have e1 : priceLine.isEmpty = false := by rw [List.isEmpty_eq_false]; exact hp
    have e2 : bodyTxt.isEmpty = false := by rw [List.isEmpty_eq_false]; exact hb
    have e3 : link.isEmpty = false := by rw [List.isEmpty_eq_false]; exact hl
    simp [composeCaption, e1, e2, e3]
  · intro affId title urgency
    rfl
  · intro d e tag tag2 h1 h2 h3 h4 h5
    simp only [createMessage, h1, h2, h3, h4, h5]

/-- Witness for C8: concrete invocations on equal inputs coincide; with
price, body and link all empty only the three unconditional parts remain. -/
theorem composition_deterministic_witness :
    buildCaption [] emptyReq = buildCaption [] emptyReq ∧
    composeCaption [] "t".toList "p".toList "b".toList "l".toList "u".toList =
      sepJoin "\n\n".toList
        ["🔥 *".toList ++ "t".toList ++ "*".toList,
         "💸 ".toList ++ "p".toList,
         "b".toList,
         "👉 Buy: ".toList ++ "l".toList,
         "u".toList,
         "🔖 ".toList ++ "LootAlert".toList] ∧
    createMessage sampleDeal [] = createMessage sampleDeal [] := by
  refine ⟨composition_deterministic.1 [] emptyReq emptyReq
      rfl rfl rfl rfl rfl rfl rfl rfl rfl, ?_,
    composition_deterministic.2.2.2 sampleDeal sampleDeal [] []
      rfl rfl rfl rfl rfl⟩
  exact composition_deterministic.2.1 [] "t".toList "p".toList "b".toList
    "l".toList "u".toList (by decide) (by decide) (by decide)

/-! ### Claim C9: session handlers only flip the flag, only catchQR writes the artifact -/

/-- Claim C9: the disconnect and logout handlers set `connected` to false
while leaving the stored login artifact unchanged; no handler other than a
fresh login-challenge event (`catchQR`) ever writes the artifact, and
`catchQR` overwrites it with the freshly rendered challenge. -/
theorem session_handlers_frame :
    (∀ (s : QrRef) (state : JStr),
      state = "DISCONNECTED".toList ∨ state = "UNPAIRED".toList →
      onStateChange state s = ⟨s.code, false⟩) ∧
    (∀ (s : QrRef) (state : JStr), (onStateChange state s).code = s.code) ∧
    (∀ s : QrRef, onLogout s = ⟨s.code, false⟩) ∧
    (∀ s : QrRef, (onConnected s).code = s.code) ∧
    (∀ (s : QrRef) (enc : JStr → JStr) (u : JStr),
      catchQR enc u s = ⟨some (qrServerUrl enc u), s.connected⟩) := by
  refine ⟨?_, ?_, ?_, ?_, ?_⟩
  · intro s state h
    unfold onStateChange
    rw [if_pos h]
  · intro s state
    unfold onStateChange
    by_cases h : state = "DISCONNECTED".toList ∨ state = "UNPAIRED".toList
    · rw [if_pos h]
    · rw [if_neg h]
  · intro s; rfl
  · intro s; rfl
  · intro s enc u; rfl

/-- Witness for C9 at a concrete status value and challenge. -/
theorem session_handlers_frame_witness :
    onStateChange "DISCONNECTED".toList ⟨some "old".toList, true⟩ =
      ⟨some "old".toList, false⟩ ∧
    onLogout ⟨some "old".toList, true⟩ = ⟨some "old".toList, false⟩ ∧
    catchQR id "code".toList ⟨some "old".toList, false⟩ =
      ⟨some (qrServerUrl id "code".toList), false⟩ := by
  refine ⟨session_handlers_frame.1 ⟨some "old".toList, true⟩ "DISCONNECTED".toList
      (Or.inl rfl),
    session_handlers_frame.2.2.1 ⟨some "old".toList, true⟩,
    session_handlers_frame.2.2.2.2 ⟨some "old".toList, false⟩ id "code".toList⟩

/-! ### Claim C10: totality of safeCall -/

/-- Claim C10: `safeCall` is total over its wrapped computation — it never
rejects itself, resolves `ok` with the result exactly when the computation
completes normally, and resolves `err` with the error exactly when the
computation throws. -/
theorem safeCall_total (ε α : Type) :
    (∀ fn : Unit → Except ε α, neverThrew (safeCall fn) = true) ∧
    (∀ (fn : Unit → Except ε α) (r : α),
      safeCall fn = Except.ok (SafeResult.ok r) ↔ fn () = Except.ok r) ∧
    (∀ (fn : Unit → Except ε α) (e : ε),
      safeCall fn = Except.ok (SafeResult.err e) ↔ fn () = Except.error e) := by
  refine ⟨?_, ?_, ?_⟩
  · intro fn
    cases h : fn () <;> simp [safeCall, jsTry, Except.map, h, neverThrew]
  · intro fn r
    cases h : fn () <;> simp [safeCall, jsTry, Except.map, h]
  · intro fn e
    cases h : fn () <;> simp [safeCall, jsTry, Except.map, h]

end N8nWhatsapp
